import Mathlib

/-!
Verification of the travel-agent repository's intent-extraction broker and
workflow wiring against its natural-language specification.

The Python sources are shallowly embedded:
* JSON values (`json.loads` output) become the inductive `Json`;
  Python truthiness (`bool(x)`) becomes `truthy`.
* `_enforce_status_rules` (identical in `scripts/extract_travel_intent.py`
  lines 110-143 and `infrastructure/lambda/broker/handler.py` lines 97-126)
  becomes `enforce_status_rules` over an `IntentResult` record whose fields
  are the keys the code reads and writes.
* The broker's `lambda_handler` (`broker/handler.py` lines 161-253) becomes a
  state-passing function over an explicit store plus operation counters; the
  Bedrock backend and the SHA-256 fingerprint are opaque function parameters.
* `agents/error_handler.py` and `agents/synthesis.py` are embedded likewise.
-/

namespace TravelAgent

/-- JSON values as produced by `json.loads`: null, booleans, numbers, strings,
arrays and objects (objects as association lists in key order). Numbers are
modelled as integers, which covers every numeric literal the claims exercise. -/
inductive Json where
  | null
  | bool (b : Bool)
  | num (n : Int)
  | str (s : String)
  | arr (xs : List Json)
  | obj (kvs : List (String × Json))

/-- Python truthiness `bool(x)` on a JSON value: `None`, `False`, `0`, `""`,
`[]` and `{}` are falsy, everything else truthy. -/
def truthy : Json → Bool
  | .null => false
  | .bool b => b
  | .num n => n != 0
  | .str s => s != ""
  | .arr xs => !xs.isEmpty
  | .obj kvs => !kvs.isEmpty

/-- Truthiness of `dict.get(key)`: a missing key gives `None`, which is falsy. -/
def pyTruthy : Option Json → Bool
  | none => false
  | some j => truthy j

/-- Python `d.get(k)` on a JSON object represented as an association list:
the first binding wins, a missing key gives `None`. -/
def objGet (kvs : List (String × Json)) (k : String) : Option Json :=
  (kvs.find? (fun p => p.1 == k)).map (fun p => p.2)

/-- Python `x == 0` on a `dict.get` result. `0 == 0`, and `False == 0` because
Python booleans are integers; `None`, strings, lists and dicts never equal `0`. -/
def pyEqZero : Option Json → Bool
  | some (.num n) => n == 0
  | some (.bool b) => !b
  | _ => false

/-- Helper for `dict.fromkeys` deduplication: drop any element already seen,
keeping first occurrences in order. -/
def dedupFirstAux : List String → List String → List String
  | _, [] => []
  | seen, x :: xs =>
    if seen.contains x then dedupFirstAux seen xs
    else x :: dedupFirstAux (x :: seen) xs

/-- `list(dict.fromkeys(l))`: deduplicate keeping the first occurrence of each
element, preserving order (broker/handler.py line 114). -/
def dedupKeepFirst (l : List String) : List String := dedupFirstAux [] l

/-- Lexicographic `≤` on character lists, the order Python uses to compare
strings (ISO `YYYY-MM-DD` dates compare chronologically under it). -/
def charListLe : List Char → List Char → Bool
  | [], _ => true
  | _ :: _, [] => false
  | a :: as, b :: bs => if a < b then true else if b < a then false else charListLe as bs

/-- Python string comparison `a <= b`. -/
def strLe (a b : String) : Bool := charListLe a.toList b.toList

/-- The `travel_dates` validity test of `_enforce_status_rules` (both copies,
scripts lines 122-127 / broker lines 105-110): the value is a dict
(`isinstance(travel_dates, dict)`) with truthy `departure` and `return`. -/
def travel_dates_valid (extracted : List (String × Json)) : Bool :=
  match objGet extracted "travel_dates" with
  | some (.obj td) => pyTruthy (objGet td "departure") && pyTruthy (objGet td "return")
  | _ => false

/-- The `budget_cad` test of `_enforce_status_rules` (scripts line 119 /
broker line 103): `not extracted.get("budget_cad") and
extracted.get("budget_cad") != 0`. -/
def budget_cad_missing (extracted : List (String × Json)) : Bool :=
  !pyTruthy (objGet extracted "budget_cad") && !pyEqZero (objGet extracted "budget_cad")

/-- The result dict flowing through `_enforce_status_rules`, with the keys the
code reads or writes: `status`, `missing_fields` (a list of field-name
strings per the model's output schema), `extracted` (a JSON object),
`budget_warning` and `clarification_needed`. `none` models an absent key or a
JSON null — `dict.get` and truthiness treat both alike. The `_meta` token-usage
key is attached by `extract_travel_intent` but never read by the policy, so it
is not carried here. -/
structure IntentResult where
  status : Option Json
  missing_fields : List String
  extracted : List (String × Json)
  budget_warning : Option Json
  clarification_needed : Option Json

/-- Embedding of `_enforce_status_rules` (scripts/extract_travel_intent.py
lines 110-143; broker/handler.py lines 97-126), statement by statement:
start from the raw output's `missing_fields`, append `origin_city`,
`destination`, `budget_cad` and `travel_dates` when the corresponding
presence test fails, deduplicate with `dict.fromkeys`, then recompute
`status` and `clarification_needed` from the resulting list. -/
def enforce_status_rules (result : IntentResult) : IntentResult :=
  let extracted := result.extracted
  let missing0 := result.missing_fields
  let missing1 :=
    if !pyTruthy (objGet extracted "origin_city") then missing0 ++ ["origin_city"]
    else missing0
  let missing2 :=
    if !pyTruthy (objGet extracted "destination") then missing1 ++ ["destination"]
    else missing1
  let missing3 :=
    if budget_cad_missing extracted then missing2 ++ ["budget_cad"]
    else missing2
  let missing4 :=
    if !travel_dates_valid extracted then missing3 ++ ["travel_dates"] else missing3
  let missingFinal := dedupKeepFirst missing4
  if missingFinal.isEmpty then
    { result with
      missing_fields := []
      status := some (.str "READY_TO_PROCESS")
      clarification_needed := none }
  else
    { result with
      missing_fields := missingFinal
      status := some (.str "NEEDS_CLARIFICATION")
      clarification_needed :=
        if pyTruthy result.clarification_needed then result.clarification_needed
        else some (.str ("Missing required fields: " ++ String.intercalate ", " missingFinal)) }

/-- The entries `_enforce_status_rules` itself appends for the four required
fields, in the order the code tests them. -/
def requiredFieldGaps (extracted : List (String × Json)) : List String :=
  (if !pyTruthy (objGet extracted "origin_city") then ["origin_city"] else []) ++
  (if !pyTruthy (objGet extracted "destination") then ["destination"] else []) ++
  (if budget_cad_missing extracted then ["budget_cad"] else []) ++
  (if !travel_dates_valid extracted then ["travel_dates"] else [])

/-- All four required-field tests of `_enforce_status_rules` pass: truthy
`origin_city` and `destination`, a `budget_cad` that is truthy or equal to
`0`, and a `travel_dates` dict with truthy `departure` and `return`. -/
def allRequiredPresent (extracted : List (String × Json)) : Bool :=
  pyTruthy (objGet extracted "origin_city") &&
  pyTruthy (objGet extracted "destination") &&
  !budget_cad_missing extracted &&
  travel_dates_valid extracted

/-- Modelled from the spec: the specification's notion of a self-consistent
date range — both dates present and departure ≤ return as date strings. The
code under src never performs the ≤ comparison; this definition exists only to
compare the spec's wording with the code's behaviour. -/
def dateRangeSelfConsistent (extracted : List (String × Json)) : Bool :=
  match objGet extracted "travel_dates" with
  | some (.obj td) =>
    match objGet td "departure", objGet td "return" with
    | some (.str d), some (.str r) => strLe d r
    | _, _ => false
  | _ => false

/-- A fully-specified extraction with a consistent date range, as the model
would produce for the spec's happy-path scenario. -/
def goodExtracted : List (String × Json) :=
  [("origin_city", .str "Edmonton"),
   ("destination", .str "Vancouver"),
   ("travel_dates", .obj [("departure", .str "2026-03-14"), ("return", .str "2026-03-17")]),
   ("budget_cad", .num 1500)]

/-- A fully-specified extraction whose departure date falls after its return
date — all four required fields present, date range inconsistent. -/
def badDatesExtracted : List (String × Json) :=
  [("origin_city", .str "Edmonton"),
   ("destination", .str "Vancouver"),
   ("travel_dates", .obj [("departure", .str "2026-03-17"), ("return", .str "2026-03-14")]),
   ("budget_cad", .num 1500)]

/-- A raw model output with the inconsistent date range and an empty
`missing_fields` list. -/
def rawBadDates : IntentResult :=
  { status := none
    missing_fields := []
    extracted := badDatesExtracted
    budget_warning := none
    clarification_needed := none }

/-- A raw model output whose extracted object is complete and valid but whose
self-asserted `missing_fields` carries an extra entry. -/
def rawExtraMissing : IntentResult :=
  { status := some (.str "READY_TO_PROCESS")
    missing_fields := ["not_a_travel_request"]
    extracted := goodExtracted
    budget_warning := none
    clarification_needed := none }

/-- A raw model output that states a numeric budget yet also lists
`budget_cad` in its self-asserted `missing_fields`. -/
def rawBudgetListed : IntentResult :=
  { status := none
    missing_fields := ["budget_cad"]
    extracted := goodExtracted
    budget_warning := none
    clarification_needed := none }

/-- A Step Functions failure `Cause` string carrying raw stack data, as Lambda
faults produce; shorter than the 1000-character truncation bound. -/
def stackTraceCause : String :=
  "Traceback (most recent call last): File handler.py line 42 in lambda_handler Exception: boom"

namespace Broker

/-- What the Bedrock `converse` call yields after markdown-fence stripping:
either text that `json.loads` parses into a result dict, or text that fails to
parse. The backend is opaque (spec section 6); only this dichotomy matters. -/
inductive RawModelOutput where
  | parsed (r : IntentResult)
  | unparseable

/-- The hard-coded fallback dict built in `broker/handler.py` lines 145-151
when `json.loads` raises: empty `extracted`, `missing_fields` of just
`parsing_error`, status `NEEDS_CLARIFICATION` and a fixed clarification. -/
def parseFailureFallback : IntentResult :=
  { status := some (.str "NEEDS_CLARIFICATION")
    missing_fields := ["parsing_error"]
    extracted := []
    budget_warning := none
    clarification_needed := some (.str "System error: Could not parse intent.") }

/-- Embedding of the broker's `extract_travel_intent` (broker/handler.py
lines 128-159) downstream of the opaque Bedrock call: parse the raw text or
fall back to `parseFailureFallback`, then apply `_enforce_status_rules`.
The `_meta` token-usage annotation is attached to a key the policy never
reads, so it is omitted from the record. -/
def extract_travel_intent (raw : RawModelOutput) : IntentResult :=
  match raw with
  | .parsed r => enforce_status_rules r
  | .unparseable => enforce_status_rules parseFailureFallback

/-- Whether the two DynamoDB calls raise `ClientError` during this invocation
(broker/handler.py catches exactly these, lines 215-218 and 239-240). -/
structure StoreBehavior where
  readFails : Bool
  writeFails : Bool

/-- Broker-visible state: the DynamoDB table as an association list from
`requestId` (the fingerprint) to the persisted `result` attribute, plus
counters of attempted store reads (`get_item`), backend invocations
(`bedrock_client.converse`) and attempted store writes (`put_item`).
TTL, correlation id and timestamp attributes are bookkeeping the claims never
read and are not carried. -/
structure BrokerState where
  store : List (String × IntentResult)
  backendCalls : Nat
  storeReads : Nat
  storeWrites : Nat

/-- `table.get_item(Key={"requestId": k})` on the modelled table: the `result`
attribute of the item at key `k`, if present. -/
def table_get (store : List (String × IntentResult)) (k : String) : Option IntentResult :=
  (store.find? (fun p => p.1 == k)).map (fun p => p.2)

/-- `table.put_item` on the modelled table: unconditional overwrite at key
`k` (the code uses a plain `put_item`, not a conditional write). -/
def table_put (store : List (String × IntentResult)) (k : String) (v : IntentResult) :
    List (String × IntentResult) :=
  (k, v) :: store.filter (fun p => p.1 != k)

/-- Outcome of one broker invocation: an HTTP-style response whose body is the
serialized result dict (`json.dumps` is a deterministic function of the dict,
so the body is carried as the dict itself; `none` is the 400 error body), or
an uncaught exception. -/
inductive BrokerOutcome where
  | response (statusCode : Nat) (body : Option IntentResult)
  | raised (msg : String)

/-- Embedding of the broker's `lambda_handler` (broker/handler.py lines
161-253) for a direct invocation (`event["input"]`; EventBridge invocations
differ only in taking the fingerprint from the intake Lambda, which computes
the same SHA-256 of the input text, intake/handler.py line 42). `sha256` is
the opaque deterministic fingerprint function, `backend` the opaque Bedrock
call. In order: the `FORCE_CRASH` sentinel raises before anything else
touches state; empty input returns 400; then a `get_item` whose `ClientError`
is treated as a miss; on a hit the cached result is returned without calling
the backend; on a miss the backend runs, a best-effort `put_item` is
attempted, and the fresh result is returned. A `None` input fails the
`FORCE_CRASH` equality test and then the truthiness test, exactly as in
Python. -/
def lambda_handler (sha256 : String → String) (backend : String → RawModelOutput)
    (sb : StoreBehavior) (user_input : Option String) (st : BrokerState) :
    BrokerOutcome × BrokerState :=
  match user_input with
  | none => (BrokerOutcome.response 400 none, st)
  | some s =>
    if s = "FORCE_CRASH" then
      (BrokerOutcome.raised "Features: FORCE_CRASH - Deliberate Failure for DLQ Test", st)
    else if s = "" then
      (BrokerOutcome.response 400 none, st)
    else
      let request_hash := sha256 s
      let st1 : BrokerState := { st with storeReads := st.storeReads + 1 }
      match (if sb.readFails then none else table_get st1.store request_hash) with
      | some cached => (BrokerOutcome.response 200 (some cached), st1)
      | none =>
        let result := extract_travel_intent (backend s)
        let st2 : BrokerState := { st1 with backendCalls := st1.backendCalls + 1 }
        let st3 : BrokerState := { st2 with storeWrites := st2.storeWrites + 1 }
        let st4 : BrokerState :=
          if sb.writeFails then st3
          else { st3 with store := table_put st3.store request_hash result }
        (BrokerOutcome.response 200 (some result), st4)

end Broker

namespace ErrorHandler

/-- Python string slicing `s[:n]`: the first `n` characters. -/
def pyTruncate (s : String) (n : Nat) : String := (s.toList.take n).asString

/-- Observable outcome of one error-handler invocation: the `update_item`
write it performed, if any — `(requestId, status written, error written)` —
and the dict it returns. -/
structure Outcome where
  updated : Option (String × String × String)
  returned_status : String
  returned_error : String

/-- Embedding of `agents/error_handler.py` `lambda_handler` (lines 7-40):
`error_msg` is `str(event.get("error", {}).get("Cause", "Unknown Error"))`
(cause strings carried as strings; `none` models an absent key); when both
`requestId` and the `REQUEST_TABLE_NAME` environment value are truthy, the
record is updated to status `FAILED` with the message truncated to 1000
characters; the handler returns the untruncated message either way. The
`update_item` call sits in a bare try/except, so a store failure only skips
the write — that path is the `updated = none` outcome. -/
def lambda_handler (table_name : Option String) (requestId : Option String)
    (cause : Option String) : Outcome :=
  let error_msg := cause.getD "Unknown Error"
  let updated :=
    match requestId, table_name with
    | some rid, some tn =>
      if rid != "" && tn != "" then some (rid, "FAILED", pyTruncate error_msg 1000)
      else none
    | _, _ => none
  { updated := updated
    returned_status := "FAILED"
    returned_error := error_msg }

end ErrorHandler

namespace Workflow

/-- The branches of the `sfn.Parallel` block in the order they are declared
(`infrastructure/stacks/workflow.py` lines 277-283: `parallel.branch(hotel_task)`,
then `weather_task`, then `events_task`). Each branch task is an opaque
function from the state input to its JSON output. -/
def declaredBranches {α : Type} (hotelF weatherF eventsF : α → Json) : List (α → Json) :=
  [hotelF, weatherF, eventsF]

/-- Modelled from the spec: the AWS Step Functions runtime that executes a
Parallel state is not part of this repository's sources. Per the spec,
branches complete in an arbitrary order; this log records, in completion
order, each completing branch's declared index paired with its output. -/
def completionLog {α : Type} (fs : List (α → Json)) (order : List Nat) (x : α) :
    List (Nat × Json) :=
  order.filterMap (fun i => (fs.get? i).map (fun f => (i, f x)))

/-- Modelled from the spec: the Parallel state's aggregate output is assembled
by declared branch index — slot `i` holds the output logged for branch `i`,
regardless of where in the completion order it appeared. -/
def assemble (n : Nat) (log : List (Nat × Json)) : List (Option Json) :=
  (List.range n).map (fun i => (log.find? (fun p => p.1 == i)).map (fun p => p.2))

/-- Modelled from the spec: one execution of a Parallel block whose branches
complete in the order `order`. -/
def runParallel {α : Type} (fs : List (α → Json)) (order : List Nat) (x : α) :
    List (Option Json) :=
  assemble fs.length (completionLog fs order x)

end Workflow

namespace Synthesis

/-- The dict returned by `parse_event_data` in `agents/synthesis.py`. -/
structure ParsedData where
  request_id : Option Json
  intent : List (String × Json)
  flights : Json
  hotels : Json
  weather : Json
  events : Json

/-- Embedding of `parse_event_data` (agents/synthesis.py lines 11-37) over the
Step Functions input's schema-fixed keys: `requestId`, `extracted` (defaulting
to `{}`), `flight_output` (defaulting to `{}`) and `parallel_results`
(defaulting to `[]`). Slots 0, 1 and 2 of `parallel_results` become `hotels`,
`weather` and `events`, with `{}` when the list is too short. -/
def parse_event_data (requestId : Option Json) (extracted : List (String × Json))
    (flight_output : Json) (parallel_results : List Json) : ParsedData :=
  { request_id := requestId
    intent := extracted
    flights := flight_output
    hotels := parallel_results.getD 0 (Json.obj [])
    weather := parallel_results.getD 1 (Json.obj [])
    events := parallel_results.getD 2 (Json.obj []) }

end Synthesis

/-- A concrete fingerprint function for instantiations: any deterministic
`String → String` stands in for SHA-256. -/
def idHash : String → String := fun s => s

/-- A concrete opaque backend for instantiations: always returns unparseable
text. -/
def constUnparseable : String → Broker.RawModelOutput :=
  fun _ => Broker.RawModelOutput.unparseable

/-- The broker state before any request: empty table, no calls. -/
def emptyBrokerState : Broker.BrokerState :=
  { store := [], backendCalls := 0, storeReads := 0, storeWrites := 0 }

/-! ### Helper lemmas about first-occurrence deduplication -/

theorem dedupFirstAux_sublist (seen l : List String) : List.Sublist (dedupFirstAux seen l) l := by
  induction l generalizing seen with
  | nil => simp [dedupFirstAux]
  | cons x xs ih =>
    simp only [dedupFirstAux]
    split
    · exact (ih seen).cons x
    · exact (ih (x :: seen)).cons₂ x

theorem mem_dedupFirstAux (a : String) (seen l : List String) :
    a ∈ dedupFirstAux seen l ↔ a ∈ l ∧ a ∉ seen := by
  induction l generalizing seen with
  | nil => simp [dedupFirstAux]
  | cons x xs ih =>
    simp only [dedupFirstAux]
    split
    next hc =>
      rw [ih, List.mem_cons]
      have hx : x ∈ seen := by simpa using hc
      constructor
      · rintro ⟨hxs, hns⟩
        exact ⟨Or.inr hxs, hns⟩
      · rintro ⟨hor, hns⟩
        rcases hor with heq | hxs
        · exact absurd (heq ▸ hx) hns
        · exact ⟨hxs, hns⟩
    next hc =>
      have hx : x ∉ seen := by simpa using hc
      rw [List.mem_cons, ih, List.mem_cons]
      by_cases hax : a = x
      · subst hax
        simp [hx]
      · simp [hax]

theorem nodup_dedupFirstAux (seen l : List String) : (dedupFirstAux seen l).Nodup := by
  induction l generalizing seen with
  | nil => simp [dedupFirstAux]
  | cons x xs ih =>
    simp only [dedupFirstAux]
    split
    · exact ih seen
    · refine List.nodup_cons.mpr ⟨?_, ih (x :: seen)⟩
      intro hmem
      exact ((mem_dedupFirstAux x (x :: seen) xs).mp hmem).2 (List.mem_cons_self x seen)

theorem dedupKeepFirst_sublist (l : List String) : List.Sublist (dedupKeepFirst l) l :=
  dedupFirstAux_sublist [] l

theorem mem_dedupKeepFirst (a : String) (l : List String) :
    a ∈ dedupKeepFirst l ↔ a ∈ l := by
  rw [dedupKeepFirst, mem_dedupFirstAux]
  simp

theorem nodup_dedupKeepFirst (l : List String) : (dedupKeepFirst l).Nodup :=
  nodup_dedupFirstAux [] l

theorem dedupKeepFirst_nil_iff (l : List String) : dedupKeepFirst l = [] ↔ l = [] := by
  cases l with
  | nil => simp [dedupKeepFirst, dedupFirstAux]
  | cons x xs => simp [dedupKeepFirst, dedupFirstAux]

/-! ### Helper lemmas about the status policy -/

/-- Closed-form characterization of `enforce_status_rules`: the final
`missing_fields` is the deduplication of the raw list followed by the
recomputed required-field gaps, and status plus clarification are derived
from whether that list is empty. Everything proved about the policy flows
through this equation. -/
theorem enforce_eq (r : IntentResult) :
    enforce_status_rules r =
      (if (dedupKeepFirst (r.missing_fields ++ requiredFieldGaps r.extracted)).isEmpty then
        { r with
          missing_fields := []
          status := some (.str "READY_TO_PROCESS")
          clarification_needed := none }
      else
        { r with
          missing_fields := dedupKeepFirst (r.missing_fields ++ requiredFieldGaps r.extracted)
          status := some (.str "NEEDS_CLARIFICATION")
          clarification_needed :=
            if pyTruthy r.clarification_needed then r.clarification_needed
            else some (.str ("Missing required fields: " ++ String.intercalate ", "
              (dedupKeepFirst (r.missing_fields ++ requiredFieldGaps r.extracted)))) }) := by
  unfold enforce_status_rules requiredFieldGaps
  by_cases h1 : pyTruthy (objGet r.extracted "origin_city") = true <;>
  by_cases h2 : pyTruthy (objGet r.extracted "destination") = true <;>
  by_cases h3 : budget_cad_missing r.extracted = true <;>
  by_cases h4 : travel_dates_valid r.extracted = true <;>
  simp [h1, h2, h3, h4, List.append_assoc]

theorem enforce_missing_eq (r : IntentResult) :
    (enforce_status_rules r).missing_fields
      = dedupKeepFirst (r.missing_fields ++ requiredFieldGaps r.extracted) := by
  rw [enforce_eq]
  cases hm : dedupKeepFirst (r.missing_fields ++ requiredFieldGaps r.extracted) with
  | nil => simp [hm]
  | cons a t => simp [hm]

theorem requiredFieldGaps_nil_iff (e : List (String × Json)) :
    requiredFieldGaps e = [] ↔ allRequiredPresent e = true := by
  unfold requiredFieldGaps allRequiredPresent
  by_cases h1 : pyTruthy (objGet e "origin_city") = true <;>
  by_cases h2 : pyTruthy (objGet e "destination") = true <;>
  by_cases h3 : budget_cad_missing e = true <;>
  by_cases h4 : travel_dates_valid e = true <;>
  simp [h1, h2, h3, h4]

theorem mem_requiredFieldGaps (e : List (String × Json)) (a : String) :
    a ∈ requiredFieldGaps e ↔
      (a = "origin_city" ∧ pyTruthy (objGet e "origin_city") = false) ∨
      (a = "destination" ∧ pyTruthy (objGet e "destination") = false) ∨
      (a = "budget_cad" ∧ budget_cad_missing e = true) ∨
      (a = "travel_dates" ∧ travel_dates_valid e = false) := by
  unfold requiredFieldGaps
  by_cases h1 : pyTruthy (objGet e "origin_city") = true <;>
  by_cases h2 : pyTruthy (objGet e "destination") = true <;>
  by_cases h3 : budget_cad_missing e = true <;>
  by_cases h4 : travel_dates_valid e = true <;>
  simp [h1, h2, h3, h4]

/-! ### Claims about the intent-extraction policy -/

/-- Claim C1, counterexample: a raw output whose four required fields are all
present but whose departure (2026-03-17) falls after its return (2026-03-14)
is normalized to `READY_TO_PROCESS`, even though its date range is not
self-consistent in the spec's sense — the policy never compares the two
dates. -/
theorem C1_counterexample :
    (enforce_status_rules rawBadDates).status = some (Json.str "READY_TO_PROCESS")
    ∧ dateRangeSelfConsistent rawBadDates.extracted = false :=
  ⟨rfl, rfl⟩

/-- Claim C1 (amended): the normalized status is `READY_TO_PROCESS` iff the
normalized `missing_fields` is empty, and that holds iff the raw output
asserted no `missing_fields` entries and all four required fields pass the
code's presence tests, where the `travel_dates` test only demands a dict with
truthy `departure` and `return` — the order of the two dates is not checked. -/
theorem C1_theorem (r : IntentResult) :
    ((enforce_status_rules r).status = some (Json.str "READY_TO_PROCESS") ↔
      (enforce_status_rules r).missing_fields = [])
    ∧ ((enforce_status_rules r).missing_fields = [] ↔
      (r.missing_fields = [] ∧ allRequiredPresent r.extracted = true)) := by
  constructor
  · rw [enforce_eq]
    cases hm : dedupKeepFirst (r.missing_fields ++ requiredFieldGaps r.extracted) with
    | nil => simp
    | cons a t => simp
  · rw [enforce_missing_eq, dedupKeepFirst_nil_iff, List.append_eq_nil,
      requiredFieldGaps_nil_iff]

/-- Claim C2, counterexample: a raw output whose extracted object passes all
four required-field tests but which asserts a non-empty `missing_fields`
keeps that entry after normalization — the asserted list does influence the
result, and the normalized list is not empty. -/
theorem C2_counterexample :
    (enforce_status_rules rawExtraMissing).missing_fields = ["not_a_travel_request"]
    ∧ (enforce_status_rules rawExtraMissing).status = some (Json.str "NEEDS_CLARIFICATION")
    ∧ allRequiredPresent rawExtraMissing.extracted = true :=
  ⟨rfl, rfl, rfl⟩

/-- Claim C2 (amended): the policy ignores the raw output's asserted `status`
entirely, but it does not recompute `missing_fields` from scratch: it appends
the recomputed required-field entries to the entries the raw output asserted
and deduplicates keeping first occurrences, so raw-asserted entries are
retained. -/
theorem C2_theorem (r : IntentResult) (s : Option Json) :
    enforce_status_rules { r with status := s } = enforce_status_rules r
    ∧ (enforce_status_rules r).missing_fields
        = dedupKeepFirst (r.missing_fields ++ requiredFieldGaps r.extracted) := by
  refine ⟨?_, enforce_missing_eq r⟩
  cases r
  rfl

/-- Claim C4, counterexample: on a parse failure the broker's
`extract_travel_intent` does not return `missing_fields = ["parsing_error"]` —
`_enforce_status_rules` runs on the fallback dict, whose empty `extracted`
object fails all four required-field tests, appending four more entries. -/
theorem C4_counterexample :
    (Broker.extract_travel_intent Broker.RawModelOutput.unparseable).missing_fields
      ≠ ["parsing_error"] := by
  decide

/-- Claim C4 (amended): on a parse failure the broker produces an intent whose
`extracted` object is empty (every field reads as null), whose
`missing_fields` is `parsing_error` followed by the four recomputed
required-field entries, with status `NEEDS_CLARIFICATION` and the fixed
clarification message; the broker handler does not raise. (The standalone
script `scripts/extract_travel_intent.py` lines 168-175 instead re-raises
`json.JSONDecodeError` and never builds such an intent.) -/
theorem C4_theorem :
    Broker.extract_travel_intent Broker.RawModelOutput.unparseable
      = { status := some (Json.str "NEEDS_CLARIFICATION")
          missing_fields :=
            ["parsing_error", "origin_city", "destination", "budget_cad", "travel_dates"]
          extracted := []
          budget_warning := none
          clarification_needed := some (Json.str "System error: Could not parse intent.") } :=
  rfl

/-- Claim C5, counterexample: a raw output stating `budget_cad = 1500` but
also listing `budget_cad` in its asserted `missing_fields` keeps that entry
after normalization, so a stated numeric budget can still appear in the
normalized `missing_fields`. -/
theorem C5_counterexample :
    objGet rawBudgetListed.extracted "budget_cad" = some (Json.num 1500)
    ∧ "budget_cad" ∈ (enforce_status_rules rawBudgetListed).missing_fields :=
  ⟨rfl, by decide⟩

/-- Claim C5 (amended): when the extracted `budget_cad` is a stated number
(including 0), the policy itself never adds `budget_cad` — the entry appears
in the normalized `missing_fields` exactly when the raw output asserted it.
`budget_warning` passes through untouched, and neither the normalized status
nor the normalized `missing_fields` depends on it. -/
theorem C5_theorem (r : IntentResult) (b : Int)
    (h : objGet r.extracted "budget_cad" = some (Json.num b)) :
    ("budget_cad" ∈ (enforce_status_rules r).missing_fields ↔
      "budget_cad" ∈ r.missing_fields)
    ∧ (enforce_status_rules r).budget_warning = r.budget_warning
    ∧ ∀ (w : Option Json),
        (enforce_status_rules { r with budget_warning := w }).status
          = (enforce_status_rules r).status
        ∧ (enforce_status_rules { r with budget_warning := w }).missing_fields
          = (enforce_status_rules r).missing_fields := by
  have hbm : budget_cad_missing r.extracted = false := by
    simp [budget_cad_missing, h, pyTruthy, truthy, pyEqZero, bne]
  refine ⟨?_, ?_, ?_⟩
  · rw [enforce_missing_eq, mem_dedupKeepFirst, List.mem_append, mem_requiredFieldGaps]
    have h1 : ("budget_cad" : String) ≠ "origin_city" := by decide
    have h2 : ("budget_cad" : String) ≠ "destination" := by decide
    have h3 : ("budget_cad" : String) ≠ "travel_dates" := by decide
    simp [hbm, h1, h2, h3]
  · rw [enforce_eq]
    split <;> rfl
  · intro w
    cases r with
    | mk st mf e bw cn =>
      rw [enforce_eq, enforce_eq]
      cases hm : dedupKeepFirst (mf ++ requiredFieldGaps e) with
      | nil => exact ⟨rfl, rfl⟩
      | cons a t => exact ⟨rfl, rfl⟩

/-- Claim C5 witness: instantiation at a raw output stating budget 1500 and
also asserting `budget_cad` missing. -/
theorem C5_witness :
    objGet rawBudgetListed.extracted "budget_cad" = some (Json.num 1500)
    ∧ (("budget_cad" ∈ (enforce_status_rules rawBudgetListed).missing_fields ↔
        "budget_cad" ∈ rawBudgetListed.missing_fields)
      ∧ (enforce_status_rules rawBudgetListed).budget_warning
          = rawBudgetListed.budget_warning
      ∧ ∀ (w : Option Json),
          (enforce_status_rules { rawBudgetListed with budget_warning := w }).status
            = (enforce_status_rules rawBudgetListed).status
          ∧ (enforce_status_rules { rawBudgetListed with budget_warning := w }).missing_fields
            = (enforce_status_rules rawBudgetListed).missing_fields) :=
  ⟨rfl, C5_theorem rawBudgetListed 1500 rfl⟩

/-- Claim C10: the normalized `missing_fields` is the first-occurrence
deduplication of the raw entries followed by the recomputed required-field
entries — in particular duplicate-free — and `clarification_needed` is null
iff the status is `READY_TO_PROCESS`: it is erased on the ready branch, kept
when the raw output supplied a truthy message, and synthesized from the final
missing list otherwise. -/
theorem C10_theorem (r : IntentResult) :
    (enforce_status_rules r).missing_fields
      = dedupKeepFirst (r.missing_fields ++ requiredFieldGaps r.extracted)
    ∧ ((enforce_status_rules r).missing_fields).Nodup
    ∧ ((enforce_status_rules r).clarification_needed = none ↔
        (enforce_status_rules r).status = some (Json.str "READY_TO_PROCESS"))
    ∧ (enforce_status_rules r).clarification_needed
        = (if dedupKeepFirst (r.missing_fields ++ requiredFieldGaps r.extracted) = [] then
            none
          else if pyTruthy r.clarification_needed then r.clarification_needed
          else some (Json.str ("Missing required fields: " ++ String.intercalate ", "
            (dedupKeepFirst (r.missing_fields ++ requiredFieldGaps r.extracted))))) := by
  refine ⟨enforce_missing_eq r, ?_, ?_, ?_⟩
  · rw [enforce_missing_eq]
    exact nodup_dedupKeepFirst _
  · rw [enforce_eq]
    cases hm : dedupKeepFirst (r.missing_fields ++ requiredFieldGaps r.extracted) with
    | nil => simp
    | cons a t =>
      cases hcn : r.clarification_needed with
      | none => simp [pyTruthy]
      | some j =>
        by_cases hj : pyTruthy (some j) = true
        · simp [hj]
        · simp [hj]
  · rw [enforce_eq]
    cases hm : dedupKeepFirst (r.missing_fields ++ requiredFieldGaps r.extracted) with
    | nil => simp
    | cons a t => simp

/-! ### Claims about the broker handler -/

theorem table_get_put (store : List (String × IntentResult)) (k : String) (v : IntentResult) :
    Broker.table_get (Broker.table_put store k v) k = some v := by
  unfold Broker.table_get Broker.table_put
  rw [List.find?_cons_of_pos]
  · rfl
  · simp

/-- Claim C3: submitting the same non-empty, non-sentinel input twice
sequentially against a healthy store returns the same response body the
second time, the second invocation changes nothing but the read counter — in
particular it never reaches the backend or writes — and the two invocations
together call the backend at most once. The fingerprint is the opaque
deterministic `sha256` applied to the input text. -/
theorem C3_theorem (sha256 : String → String) (backend : String → Broker.RawModelOutput)
    (s : String) (st : Broker.BrokerState)
    (hne : s ≠ "") (hcrash : s ≠ "FORCE_CRASH") :
    (Broker.lambda_handler sha256 backend ⟨false, false⟩ (some s)
        (Broker.lambda_handler sha256 backend ⟨false, false⟩ (some s) st).2).1
      = (Broker.lambda_handler sha256 backend ⟨false, false⟩ (some s) st).1
    ∧ (Broker.lambda_handler sha256 backend ⟨false, false⟩ (some s)
        (Broker.lambda_handler sha256 backend ⟨false, false⟩ (some s) st).2).2
      = { (Broker.lambda_handler sha256 backend ⟨false, false⟩ (some s) st).2 with
          storeReads :=
            (Broker.lambda_handler sha256 backend ⟨false, false⟩ (some s) st).2.storeReads + 1 }
    ∧ (Broker.lambda_handler sha256 backend ⟨false, false⟩ (some s) st).2.backendCalls
        ≤ st.backendCalls + 1 := by
  cases hget : Broker.table_get st.store (sha256 s) with
  | some cached =>
    simp [Broker.lambda_handler, hcrash, hne, hget]
  | none =>
    simp [Broker.lambda_handler, hcrash, hne, hget, table_get_put]

/-- Claim C3 witness: instantiation at input "hi", an identity fingerprint, a
backend returning unparseable text, and the empty starting state. -/
theorem C3_witness :
    (("hi" : String) ≠ "" ∧ ("hi" : String) ≠ "FORCE_CRASH")
    ∧ ((Broker.lambda_handler idHash constUnparseable ⟨false, false⟩ (some "hi")
          (Broker.lambda_handler idHash constUnparseable ⟨false, false⟩ (some "hi")
            emptyBrokerState).2).1
        = (Broker.lambda_handler idHash constUnparseable ⟨false, false⟩ (some "hi")
            emptyBrokerState).1
      ∧ (Broker.lambda_handler idHash constUnparseable ⟨false, false⟩ (some "hi")
          (Broker.lambda_handler idHash constUnparseable ⟨false, false⟩ (some "hi")
            emptyBrokerState).2).2
        = { (Broker.lambda_handler idHash constUnparseable ⟨false, false⟩ (some "hi")
              emptyBrokerState).2 with
            storeReads :=
              (Broker.lambda_handler idHash constUnparseable ⟨false, false⟩ (some "hi")
                emptyBrokerState).2.storeReads + 1 }
      ∧ (Broker.lambda_handler idHash constUnparseable ⟨false, false⟩ (some "hi")
          emptyBrokerState).2.backendCalls ≤ emptyBrokerState.backendCalls + 1) :=
  ⟨⟨by decide, by decide⟩,
   C3_theorem idHash constUnparseable "hi" emptyBrokerState (by decide) (by decide)⟩

/-- Claim C8: with the store failing on both read and write, a non-empty,
non-sentinel input still flows to the backend (the read error is a cache
miss), the write error is swallowed, and the broker returns the extraction
result with status 200; only the attempt counters change. -/
theorem C8_theorem (sha256 : String → String) (backend : String → Broker.RawModelOutput)
    (s : String) (st : Broker.BrokerState)
    (hne : s ≠ "") (hcrash : s ≠ "FORCE_CRASH") :
    Broker.lambda_handler sha256 backend ⟨true, true⟩ (some s) st
      = (Broker.BrokerOutcome.response 200 (some (Broker.extract_travel_intent (backend s))),
         { st with
           storeReads := st.storeReads + 1
           backendCalls := st.backendCalls + 1
           storeWrites := st.storeWrites + 1 }) := by
  simp [Broker.lambda_handler, hcrash, hne]

/-- Claim C8 witness: instantiation at input "hi" with both store operations
failing. -/
theorem C8_witness :
    (("hi" : String) ≠ "" ∧ ("hi" : String) ≠ "FORCE_CRASH")
    ∧ Broker.lambda_handler idHash constUnparseable ⟨true, true⟩ (some "hi") emptyBrokerState
      = (Broker.BrokerOutcome.response 200
          (some (Broker.extract_travel_intent (constUnparseable "hi"))),
         { emptyBrokerState with
           storeReads := emptyBrokerState.storeReads + 1
           backendCalls := emptyBrokerState.backendCalls + 1
           storeWrites := emptyBrokerState.storeWrites + 1 }) :=
  ⟨⟨by decide, by decide⟩,
   C8_theorem idHash constUnparseable "hi" emptyBrokerState (by decide) (by decide)⟩

/-- Claim C9: the `FORCE_CRASH` sentinel raises the deliberate exception
before any store access: the outcome is the uncaught exception and the state
— store contents and all three operation counters — is exactly the initial
state. -/
theorem C9_theorem (sha256 : String → String) (backend : String → Broker.RawModelOutput)
    (sb : Broker.StoreBehavior) (st : Broker.BrokerState) :
    Broker.lambda_handler sha256 backend sb (some "FORCE_CRASH") st
      = (Broker.BrokerOutcome.raised
          "Features: FORCE_CRASH - Deliberate Failure for DLQ Test", st) :=
  rfl

/-! ### Claims about the error handler -/

/-- Claim C7, counterexample: a Step Functions `Cause` consisting of raw stack
data (a Python traceback, shorter than 1000 characters) is persisted verbatim
as the FAILED record's cause — the handler performs no stack-stripping, so the
persisted cause can contain raw stack data. -/
theorem C7_counterexample :
    (ErrorHandler.lambda_handler (some "travel-agent-request-log") (some "req-1")
        (some stackTraceCause)).updated
      = some ("req-1", "FAILED", stackTraceCause)
    ∧ List.isPrefixOf "Traceback (most recent call last)".toList stackTraceCause.toList
        = true :=
  ⟨rfl, rfl⟩

/-- Claim C7 (amended): whenever the error handler performs its store update
(which requires a truthy `requestId` and a configured table name), it writes
status `FAILED` and a cause equal to the `Cause` string truncated to its
first 1000 characters — bounded in length, but otherwise passed through
verbatim, with no filtering of stack data. -/
theorem C7_theorem (table_name requestId cause : Option String)
    (rid fstatus err : String)
    (h : (ErrorHandler.lambda_handler table_name requestId cause).updated
          = some (rid, fstatus, err)) :
    fstatus = "FAILED"
    ∧ err = ErrorHandler.pyTruncate (cause.getD "Unknown Error") 1000
    ∧ err.toList.length ≤ 1000 := by
  have hlen : ∀ (s : String), (ErrorHandler.pyTruncate s 1000).toList.length ≤ 1000 := by
    intro s
    show ((s.toList.take 1000).asString).toList.length ≤ 1000
    have hs : ((s.toList.take 1000).asString).toList = s.toList.take 1000 := rfl
    rw [hs, List.length_take]
    exact Nat.min_le_left _ _
  cases requestId with
  | none => simp [ErrorHandler.lambda_handler] at h
  | some rid0 =>
    cases table_name with
    | none => simp [ErrorHandler.lambda_handler] at h
    | some tn0 =>
      by_cases hc : (rid0 != "" && tn0 != "") = true
      · simp [ErrorHandler.lambda_handler, hc] at h
        obtain ⟨h1, h2, h3⟩ := h
        subst h2
        subst h3
        exact ⟨rfl, rfl, hlen _⟩
      · simp [ErrorHandler.lambda_handler, hc] at h

/-- Claim C7 witness: instantiation at a configured table, request id `r` and
cause `boom`. -/
theorem C7_witness :
    (ErrorHandler.lambda_handler (some "travel-agent-request-log") (some "r")
        (some "boom")).updated
      = some ("r", "FAILED", ErrorHandler.pyTruncate "boom" 1000)
    ∧ ("FAILED" : String) = "FAILED"
    ∧ ErrorHandler.pyTruncate "boom" 1000
        = ErrorHandler.pyTruncate ((some "boom").getD "Unknown Error") 1000
    ∧ (ErrorHandler.pyTruncate "boom" 1000).toList.length ≤ 1000 :=
  ⟨rfl,
   C7_theorem (some "travel-agent-request-log") (some "r") (some "boom")
     "r" "FAILED" (ErrorHandler.pyTruncate "boom" 1000) rfl⟩

/-! ### Claims about the parallel block and synthesis -/

theorem completionLog_find {α : Type} (fs : List (α → Json)) (order : List Nat) (x : α)
    (i : Nat) (hi : i < fs.length) (hmem : i ∈ order) :
    (Workflow.completionLog fs order x).find? (fun p => p.1 == i)
      = (fs.get? i).map (fun f => (i, f x)) := by
  induction order with
  | nil => cases hmem
  | cons j rest ih =>
    simp only [Workflow.completionLog, List.filterMap_cons] at ih ⊢
    by_cases hji : j = i
    · subst hji
      have hf : fs.get? j = some (fs.get ⟨j, hi⟩) := List.get?_eq_get hi
      rw [hf]
      simp only [Option.map_some']
      rw [List.find?_cons_of_pos]
      simp
    · cases hfj : fs.get? j with
      | none =>
        simp only [hfj, Option.map_none']
        refine ih ?_
        rcases List.mem_cons.mp hmem with heq | hrest
        · exact absurd heq.symm hji
        · exact hrest
      | some fj =>
        simp only [hfj, Option.map_some']
        rw [List.find?_cons_of_neg]
        · refine ih ?_
          rcases List.mem_cons.mp hmem with heq | hrest
          · exact absurd heq.symm hji
          · exact hrest
        · simp [hji]

/-- Claim C6: as long as every branch completes, a Parallel run over the
declared branch list (hotel, then weather, then events) assembles its
aggregate output as `[hotel, weather, events]` regardless of the completion
order, and `parse_event_data` reads hotel, weather and events data from
exactly slots 0, 1 and 2 of that sequence. -/
theorem C6_theorem {α : Type} (hotelF weatherF eventsF : α → Json)
    (order : List Nat) (x : α)
    (h0 : 0 ∈ order) (h1 : 1 ∈ order) (h2 : 2 ∈ order) :
    Workflow.runParallel (Workflow.declaredBranches hotelF weatherF eventsF) order x
      = [some (hotelF x), some (weatherF x), some (eventsF x)]
    ∧ ∀ (rid : Option Json) (ext : List (String × Json)) (fl : Json),
        (Synthesis.parse_event_data rid ext fl [hotelF x, weatherF x, eventsF x]).hotels
            = hotelF x
        ∧ (Synthesis.parse_event_data rid ext fl [hotelF x, weatherF x, eventsF x]).weather
            = weatherF x
        ∧ (Synthesis.parse_event_data rid ext fl [hotelF x, weatherF x, eventsF x]).events
            = eventsF x := by
  constructor
  · have e0 := completionLog_find (Workflow.declaredBranches hotelF weatherF eventsF)
      order x 0 (by simp [Workflow.declaredBranches]) h0
    have e1 := completionLog_find (Workflow.declaredBranches hotelF weatherF eventsF)
      order x 1 (by simp [Workflow.declaredBranches]) h1
    have e2 := completionLog_find (Workflow.declaredBranches hotelF weatherF eventsF)
      order x 2 (by simp [Workflow.declaredBranches]) h2
    have hr : List.range 3 = [0, 1, 2] := rfl
    unfold Workflow.runParallel Workflow.assemble
    simp only [Workflow.declaredBranches, List.length_cons, List.length_nil] at e0 e1 e2 ⊢
    rw [hr]
    simp only [List.map_cons, List.map_nil]
    rw [e0, e1, e2]
    rfl
  · intro rid ext fl
    exact ⟨rfl, rfl, rfl⟩

/-- Claim C6 witness: instantiation with constant branch outputs and the
completion order events-first, hotel, weather. -/
theorem C6_witness :
    ((0 : Nat) ∈ [2, 0, 1] ∧ (1 : Nat) ∈ [2, 0, 1] ∧ (2 : Nat) ∈ [2, 0, 1])
    ∧ (Workflow.runParallel
          (Workflow.declaredBranches (fun _ : Unit => Json.str "hotel")
            (fun _ => Json.str "weather") (fun _ => Json.str "events")) [2, 0, 1] ()
        = [some (Json.str "hotel"), some (Json.str "weather"), some (Json.str "events")]
      ∧ ∀ (rid : Option Json) (ext : List (String × Json)) (fl : Json),
          (Synthesis.parse_event_data rid ext fl
              [Json.str "hotel", Json.str "weather", Json.str "events"]).hotels
            = Json.str "hotel"
          ∧ (Synthesis.parse_event_data rid ext fl
              [Json.str "hotel", Json.str "weather", Json.str "events"]).weather
            = Json.str "weather"
          ∧ (Synthesis.parse_event_data rid ext fl
              [Json.str "hotel", Json.str "weather", Json.str "events"]).events
            = Json.str "events") :=
  ⟨⟨by decide, by decide, by decide⟩,
   C6_theorem (fun _ : Unit => Json.str "hotel") (fun _ => Json.str "weather")
     (fun _ => Json.str "events") [2, 0, 1] () (by decide) (by decide) (by decide)⟩

end TravelAgent
